import Mathlib

set_option autoImplicit false

/-!
Verification development for the Chaotic Adventures game core
(src/backend/game_engine.py, src/backend/llm_interface.py,
src/backend/enhanced_llm_interface.py).

Embedding conventions:
* Python ints are `ℤ` (or `ℕ` for indices/counts), Python floats that the
  embedded code only stores, copies and compares are `ℚ` (all literals in the
  source are exact decimals).
* Randomness (`random.random()` threshold rolls, `random.choice`,
  `random.sample`, `random.shuffle`, `random.randint`) is injected: each roll
  outcome is a `Bool` parameter, each `random.choice` is an index parameter
  (`random.choice(seq)` = `seq[randrange(len(seq))]`), `random.sample` and
  `random.shuffle` are function parameters constrained in the theorems.
* LLM text generation results are injected as `String` parameters ("the text
  returned by the generation layer"); prompt construction
  (`get_prompt`, sanitizer, modifier directives) only feeds those calls and is
  not modeled beyond that interface.
* Python code that raises is embedded in `Except String`.
-/

namespace ChaoticAdventures

/-- A narrative modifier ("buff"/"debuff"), llm_interface.py lines 14-37.
`turns_remaining` starts at `duration`, `strength` is clamped to [0.5, 2.0]
by `__init__`. -/
structure NarrativeModifier where
  name : String
  description : String
  prompt_modifier : String
  is_buff : Bool
  duration : ℤ
  strength : ℚ
  turns_remaining : ℤ
deriving DecidableEq

/-- `NarrativeModifier.__init__` (llm_interface.py lines 17-37): clamps the
strength into [0.5, 2.0] and sets `turns_remaining = duration`. -/
def mk_narrative_modifier (name description prompt_modifier : String)
    (is_buff : Bool) (duration : ℤ) (strength : ℚ) : NarrativeModifier :=
  { name := name, description := description, prompt_modifier := prompt_modifier,
    is_buff := is_buff, duration := duration,
    strength := min (max strength (1/2)) 2,
    turns_remaining := duration }

/-- The module-level registry `NARRATIVE_MODIFIERS`
(llm_interface.py lines 82-182), in insertion order. -/
def NARRATIVE_MODIFIERS : List (String × NarrativeModifier) :=
  [ ("poetic_inspiration", mk_narrative_modifier "Poetic Inspiration"
      "Makes the narrative more poetic and flowery"
      "Use more poetic and flowery language in your response. Include vivid imagery and metaphors."
      true 3 1.2),
    ("cosmic_insight", mk_narrative_modifier "Cosmic Insight"
      "Adds philosophical and existential elements"
      "Include philosophical musings and existential questions in your response."
      true 2 1.3),
    ("humorous_twist", mk_narrative_modifier "Humorous Twist"
      "Makes the narrative funnier and more absurd"
      "Make your response even more humorous and absurd. Include unexpected jokes and silly situations."
      true 3 1.5),
    ("vivid_scenery", mk_narrative_modifier "Vivid Scenery"
      "Enhances environmental descriptions"
      "Include more detailed and vivid descriptions of the surroundings and environment."
      true 2 1.2),
    ("character_depth", mk_narrative_modifier "Character Depth"
      "Adds more personality to characters"
      "Give any characters in the story more personality, quirks, and detailed characteristics."
      true 3 1.3),
    ("narrative_focus", mk_narrative_modifier "Narrative Focus"
      "Makes the story more cohesive and focused"
      "Make the narrative more focused, with better pacing and a clearer plot direction."
      true 4 1.1),
    ("confused_narrator", mk_narrative_modifier "Confused Narrator"
      "Makes the narrative slightly confused and disjointed"
      "Make the narrator slightly confused about what\x27s happening. Include some contradictions or uncertainty."
      false 2 1.2),
    ("verbose_tangents", mk_narrative_modifier "Verbose Tangents"
      "Causes the narrative to go on tangents"
      "Include irrelevant tangents and overly verbose descriptions in your response."
      false 2 1.3),
    ("mundane_focus", mk_narrative_modifier "Mundane Focus"
      "Focuses on boring and mundane details"
      "Focus on exceedingly mundane and unimportant details for at least part of your response."
      false 1 1.1),
    ("unreliable_narrator", mk_narrative_modifier "Unreliable Narrator"
      "Makes the narrator unreliable and inconsistent"
      "Make the narrator slightly unreliable. Contradict previous details or question if events actually happened."
      false 3 1.4),
    ("time_distortion", mk_narrative_modifier "Time Distortion"
      "Mixes up the order of events"
      "Present events in a slightly non-chronological order, with some confusion about what happened when."
      false 2 1.2),
    ("sensory_overload", mk_narrative_modifier "Sensory Overload"
      "Overwhelms the narrative with sensory details"
      "Overload the narrative with excessive sensory details that distract from the main events."
      false 2 1.3) ]

/-- `NarrativeModifier.decrement_duration` (llm_interface.py lines 44-52):
decrement `turns_remaining`, report whether the modifier is still active. -/
def decrement_duration (m : NarrativeModifier) : NarrativeModifier × Bool :=
  let m' := { m with turns_remaining := m.turns_remaining - 1 }
  (m', 0 < m'.turns_remaining)

/-- `LLMInterface.update_modifiers` (llm_interface.py lines 403-425) as a
function of the active-modifier list: returns
(expired names, remaining names, new active list), in iteration order. -/
def update_modifiers : List NarrativeModifier →
    List String × List String × List NarrativeModifier
  | [] => ([], [], [])
  | m :: rest =>
    let (m', alive) := decrement_duration m
    let (ex, rem, upd) := update_modifiers rest
    if alive then (ex, m'.name :: rem, m' :: upd) else (m'.name :: ex, rem, upd)

/-- One generation-parameter tier entry of `LLMInterface.MODEL_TIERS`
(llm_interface.py lines 189-226). -/
structure TierConfig where
  description : String
  model_name : String
  max_tokens : ℤ
  temperature : ℚ
  top_p : ℚ
  frequency_penalty : ℚ
  presence_penalty : ℚ
deriving DecidableEq

/-- The static tier lookup table `LLMInterface.MODEL_TIERS`
(llm_interface.py lines 189-226). -/
def MODEL_TIERS : List (String × TierConfig) :=
  [ ("basic",
     { description := "Basic narrative model with standard capabilities",
       model_name := "llama3", max_tokens := 800, temperature := 0.7,
       top_p := 0.9, frequency_penalty := 0.0, presence_penalty := 0.0 }),
    ("enhanced",
     { description := "Enhanced narrative model with improved creativity",
       model_name := "llama3", max_tokens := 1000, temperature := 0.8,
       top_p := 0.92, frequency_penalty := 0.1, presence_penalty := 0.1 }),
    ("advanced",
     { description := "Advanced narrative model with superior storytelling",
       model_name := "llama3", max_tokens := 1200, temperature := 0.85,
       top_p := 0.95, frequency_penalty := 0.2, presence_penalty := 0.2 }),
    ("master",
     { description := "Master storyteller with exceptional narrative skills",
       model_name := "llama3", max_tokens := 1500, temperature := 0.9,
       top_p := 0.98, frequency_penalty := 0.3, presence_penalty := 0.3 }) ]

/-- `LLMInterface` instance state (llm_interface.py lines 228-252): the tier,
active modifiers, chaos level, and the generation parameters installed by
`_apply_tier_settings`. -/
structure LLMInterfaceState where
  tier : String
  model_name : String
  active_modifiers : List NarrativeModifier
  chaos_level : ℤ
  max_tokens : ℤ
  temperature : ℚ
  top_p : ℚ
  frequency_penalty : ℚ
  presence_penalty : ℚ
deriving DecidableEq

/-- `LLMInterface._apply_tier_settings` (llm_interface.py lines 254-270):
coerce an unknown tier to "basic", then install that tier entry of
`MODEL_TIERS`. (The per-key `.get` defaults of the source are dead: every
table entry carries every key, so the record copy below is exact.) -/
def apply_tier_settings (s : LLMInterfaceState) (tier : String) : LLMInterfaceState :=
  let t := if (List.lookup tier MODEL_TIERS).isSome then tier else "basic"
  match List.lookup t MODEL_TIERS with
  | some cfg =>
    { s with
      model_name := cfg.model_name
      max_tokens := cfg.max_tokens
      temperature := cfg.temperature
      top_p := cfg.top_p
      frequency_penalty := cfg.frequency_penalty
      presence_penalty := cfg.presence_penalty }
  | none => s

/-- `LLMInterface.__init__` (llm_interface.py lines 228-252): invalid tiers
fall back to "basic"; no modifiers; chaos level 5; then
`_apply_tier_settings`. The numeric fields of the seed record are
placeholders: the source first assigns them inside `_apply_tier_settings`,
which overwrites every one of them. -/
def mk_llm_interface (model_name tier : String) : LLMInterfaceState :=
  let t := if (List.lookup tier MODEL_TIERS).isSome then tier else "basic"
  apply_tier_settings
    { tier := t, model_name := model_name, active_modifiers := [],
      chaos_level := 5, max_tokens := 0, temperature := 0, top_p := 0,
      frequency_penalty := 0, presence_penalty := 0 } t

/-- `LLMInterface.add_modifier` (llm_interface.py lines 327-352): look the key
up in the registry; if present, append a freshly constructed copy (with
`turns_remaining` reset to the full duration by the constructor) and return
it. -/
def lli_add_modifier (s : LLMInterfaceState) (modifier_key : String) :
    Option NarrativeModifier × LLMInterfaceState :=
  match List.lookup modifier_key NARRATIVE_MODIFIERS with
  | none => (none, s)
  | some m =>
    let new_modifier := mk_narrative_modifier m.name m.description
      m.prompt_modifier m.is_buff m.duration m.strength
    (some new_modifier, { s with active_modifiers := s.active_modifiers ++ [new_modifier] })

/-- The buff keys of the registry, dict insertion order
(llm_interface.py line 365). -/
def buff_keys : List String :=
  (NARRATIVE_MODIFIERS.filter (fun p => p.2.is_buff)).map Prod.fst

/-- The debuff keys of the registry, dict insertion order
(llm_interface.py line 366). -/
def debuff_keys : List String :=
  (NARRATIVE_MODIFIERS.filter (fun p => !p.2.is_buff)).map Prod.fst

/-- `LLMInterface.add_random_modifier` (llm_interface.py lines 354-373).
`is_buff_roll` is the outcome of `random.random() < buff_chance`;
`pick_idx` realizes `random.choice` on the selected polarity pool. Note the
pool is the full polarity key list: already-active modifiers are not
filtered out. -/
def lli_add_random_modifier (s : LLMInterfaceState) (is_buff_roll : Bool)
    (pick_idx : ℕ) : Option NarrativeModifier × LLMInterfaceState :=
  let pool := if is_buff_roll then buff_keys else debuff_keys
  let modifier_key := pool.getD (pick_idx % pool.length) ""
  lli_add_modifier s modifier_key

/-- `LLMInterface.maybe_add_random_modifier` (llm_interface.py lines 375-392).
`trigger_roll` is the outcome of `random.random() < chance` where
`chance = 0.1 + (chaos_level/10) * 0.3`; `is_buff_roll` the outcome of the
`buff_chance = 0.8 - (chaos_level/10) * 0.4` comparison. -/
def lli_maybe_add_random_modifier (s : LLMInterfaceState) (trigger_roll : Bool)
    (is_buff_roll : Bool) (pick_idx : ℕ) :
    Option NarrativeModifier × LLMInterfaceState :=
  if trigger_roll then lli_add_random_modifier s is_buff_roll pick_idx
  else (none, s)

/-- `LLMProviderType` (enhanced_llm_interface.py lines 18-23). -/
inductive LLMProviderType where
  | openrouter
  | ollama
  | mock
  | browser
deriving DecidableEq

/-- `.value` of the provider enum. -/
def provider_value : LLMProviderType → String
  | .openrouter => "openrouter"
  | .ollama => "ollama"
  | .mock => "mock"
  | .browser => "browser"

/-- `EnhancedLLMInterface` instance state (enhanced_llm_interface.py lines
29-65). Its `add_modifier` (line 242) appends the registry ENTRY ITSELF to
`active_modifiers` — not a copy — so the active elements are aliases into the
module-level `NARRATIVE_MODIFIERS` dict. The embedding makes the aliasing
explicit: `registry` is the (mutable, because mutated through those aliases)
registry heap and `active_modifiers` holds the keys of the appended entries.
Provider objects and the fallback list are modeled separately (see
`enhanced_generate`). -/
structure EnhancedState where
  provider_type : LLMProviderType
  tier : String
  chaos_level : ℤ
  registry : List (String × NarrativeModifier)
  active_modifiers : List String
deriving DecidableEq

/-- `EnhancedLLMInterface.add_modifier` (enhanced_llm_interface.py lines
238-244): membership test on the registry, then append the shared registry
entry (modeled by appending its key). Returns the source's boolean. -/
def enh_add_modifier (s : EnhancedState) (modifier_key : String) :
    Bool × EnhancedState :=
  if (List.lookup modifier_key s.registry).isSome then
    (true, { s with active_modifiers := s.active_modifiers ++ [modifier_key] })
  else (false, s)

/-- Write a mutated modifier back into the registry heap (the effect of
mutating an aliased entry in place). -/
def registry_write (reg : List (String × NarrativeModifier)) (key : String)
    (m : NarrativeModifier) : List (String × NarrativeModifier) :=
  reg.map (fun p => if p.1 = key then (p.1, m) else p)

/-- `EnhancedLLMInterface.update_modifiers` (enhanced_llm_interface.py lines
246-258): decrement each active modifier in order. Because the active
elements alias registry entries, each `decrement_duration` mutates the
registry heap (and a key occurring twice in the active list is decremented
twice). Returns (expired names, remaining keys, mutated registry). An active
key missing from the registry cannot occur (only `enh_add_modifier` appends,
after a membership test); that case is mapped to skipping the entry. -/
def enh_update_modifiers (reg : List (String × NarrativeModifier)) :
    List String → List String × List String × List (String × NarrativeModifier)
  | [] => ([], [], reg)
  | key :: rest =>
    match List.lookup key reg with
    | some m =>
      let (m', alive) := decrement_duration m
      let reg' := registry_write reg key m'
      let (ex, rem, regF) := enh_update_modifiers reg' rest
      if alive then (ex, key :: rem, regF) else (m'.name :: ex, rem, regF)
    | none => enh_update_modifiers reg rest

/-- The fixed safe string of `EnhancedLLMInterface.generate`
(enhanced_llm_interface.py line 154). -/
def safe_fallback_text : String :=
  "The narrator pauses, gathering their thoughts before continuing this chaotic tale..."

/-- One provider attempt: `.ok text` when the provider's `generate` returns,
`.error msg` when it raises. -/
def is_error (r : Except String String) : Bool :=
  match r with
  | .ok _ => false
  | .error _ => true

/-- The fallback loop of `EnhancedLLMInterface.generate`
(enhanced_llm_interface.py lines 143-154): try each fallback provider in
order, return the first success; when all fail, return the fixed safe
string. The second component is the trace of attempted fallback providers,
in invocation order. -/
def try_fallbacks : List (Except String String) →
    String × List (Except String String)
  | [] => (safe_fallback_text, [])
  | r :: rest =>
    match r with
    | .ok t => (t, [r])
    | .error _ =>
      let p := try_fallbacks rest
      (p.1, r :: p.2)

/-- `EnhancedLLMInterface.generate` (enhanced_llm_interface.py lines 115-154),
as a function of each provider's outcome at the (sanitized,
modifier-decorated) prompt: the primary is invoked exactly once; on its
failure the fallback chain runs. The second component is the trace of
invoked fallback providers. The function is total: no exception reaches the
caller. -/
def enhanced_generate (primary : Except String String)
    (fallbacks : List (Except String String)) :
    String × List (Except String String) :=
  match primary with
  | .ok t => (t, [])
  | .error _ => try_fallbacks fallbacks

/-- The engine's LLM field: either an `LLMInterface` or an
`EnhancedLLMInterface` (`EnhancedLLMInterface` is NOT a subclass of
`LLMInterface`; both `hasattr` dispatch in game_engine.py and the
`isinstance` check of `_set_model_tier` depend on which one it is). -/
inductive LLM where
  | interface (s : LLMInterfaceState)
  | enhanced (s : EnhancedState)
deriving DecidableEq

/-- Result of `get_current_tier_info`: for an `LLMInterface` it is the
`MODEL_TIERS` entry of its tier plus the tier name (llm_interface.py lines
298-307, `none` mirrors the empty dict for an unknown tier); for an
`EnhancedLLMInterface` it is the interface/provider metadata of
enhanced_llm_interface.py lines 192-205 — tier name, provider value, chaos
level, active-modifier count, plus (for the OpenRouter provider only, the
only provider with `get_tier_info`, openrouter_provider.py lines 320-337)
model-catalog metadata, which never contains `MODEL_TIERS` generation
parameters and is abstracted to a flag here. -/
inductive TierInfo where
  | interfaceInfo (cfg : Option TierConfig) (tier : String)
  | enhancedInfo (tier provider : String) (chaos_level : ℤ)
      (active_modifiers : ℕ) (has_provider_model_info : Bool)
deriving DecidableEq

/-- The `MODEL_TIERS` generation-parameter entry carried by a
`get_current_tier_info` result, when there is one. -/
def tier_info_params : TierInfo → Option TierConfig
  | .interfaceInfo cfg _ => cfg
  | .enhancedInfo _ _ _ _ _ => none

/-- `get_current_tier_info` on either interface (llm_interface.py lines
298-307, enhanced_llm_interface.py lines 192-205). -/
def get_current_tier_info : LLM → TierInfo
  | .interface s => .interfaceInfo (List.lookup s.tier MODEL_TIERS) s.tier
  | .enhanced s =>
    .enhancedInfo s.tier (provider_value s.provider_type) s.chaos_level
      s.active_modifiers.length (s.provider_type = .openrouter)

/-- `set_chaos_level` on either interface (llm_interface.py lines 318-325,
enhanced_llm_interface.py lines 232-236): clamp into [1, 10]. The enhanced
interface also forwards to its provider when the provider has the method;
provider internals are not modeled. -/
def llm_set_chaos_level (l : LLM) (level : ℤ) : LLM :=
  match l with
  | .interface s => .interface { s with chaos_level := max 1 (min level 10) }
  | .enhanced s => .enhanced { s with chaos_level := max 1 (min level 10) }

/-- Attribution attached to a sampled memory
(game_engine.py lines 771-775). -/
structure Attribution where
  player_name : String
  adventure_id : String
  date : String
deriving DecidableEq

/-- A sampled past memory: a memorable element plus attribution
(game_engine.py lines 781-785). -/
structure Memory where
  text : String
  mtype : String
  attribution : Attribution
deriving DecidableEq

/-- A memorable element as stored in a memory file (`{"text": ..,
"type": ..}`, game_engine.py lines 864-884). -/
structure MemElem where
  text : String
  mtype : String
deriving DecidableEq

/-- A buff record of `state["buffs"]` (game_engine.py lines 362-368 and
376-379). -/
structure StateBuff where
  name : String
  description : String
  duration : ℤ
  turns_remaining : ℤ
deriving DecidableEq

/-- A `state["story_events"]` entry, one constructor per `"type"` tag
appearing in game_engine.py. -/
inductive Event where
  | intro (text : String)
  | player_choice (choice response : String) (game_over : Bool)
  | chaotic_event (text : String) (memory_reference : Option Memory)
  | buff_added (buff description : String)
  | buff_expired (buff : String)
  | upgrade_available (tier : String) (next_tier : Option String)
  | model_upgraded (old_tier new_tier : String)
deriving DecidableEq

/-- The `GameEngine.state` dict (game_engine.py lines 41-55).
`current_location`, `inventory` and `end_time` are never read by the
operations under verification and are omitted. -/
structure GameState where
  player_name : String
  story_events : List Event
  chaos_level : ℤ
  buffs : List StateBuff
  memorable_elements : List MemElem
  past_memories : List Memory
  game_id : String
  start_time : String
  model_tier : String
  model_upgrade_points : ℤ
  upgrades_available : ℤ
deriving DecidableEq

/-- The `GameEngine` object: game state, current choice list, the LLM, and
the `last_*_memory` attributes (modeled as `Option`: `none` covers both an
absent attribute and an attribute set to `None`, which the source only ever
distinguishes through truthiness). -/
structure Engine where
  state : GameState
  choices : List String
  llm : LLM
  last_used_memory : Option Memory := none
  last_chaotic_memory : Option Memory := none
  last_choice_memory : Option Memory := none
deriving DecidableEq

/-- `GameEngine.get_choices` (game_engine.py lines 642-649). -/
def get_choices (e : Engine) : List String := e.choices

/-- The per-tier upgrade-point thresholds (game_engine.py lines 137-141 and
197-201; the same literal dict appears in both methods). -/
def upgrade_thresholds : List (String × ℤ) :=
  [("basic", 5), ("enhanced", 10), ("advanced", 15)]

/-- The ordered tier sequence (game_engine.py line 178). -/
def tier_progression : List String := ["basic", "enhanced", "advanced", "master"]

/-- First-occurrence successor search in a list: the effect of
`lst.index(x)` followed by `lst[idx+1]` under an `idx < len(lst)-1` bounds
check, with `ValueError` mapped to `none`. -/
def next_in : List String → String → Option String
  | [], _ => none
  | [_], _ => none
  | a :: b :: rest, t => if a = t then some b else next_in (b :: rest) t

/-- `GameEngine._get_next_tier` (game_engine.py lines 168-187). -/
def get_next_tier (current_tier : String) : Option String :=
  next_in tier_progression current_tier

/-- `GameEngine._get_points_needed_for_upgrade` (game_engine.py lines
189-208): threshold of the current tier, `0` at the highest tier. -/
def get_points_needed_for_upgrade (s : GameState) : ℤ :=
  (List.lookup s.model_tier upgrade_thresholds).getD 0

/-- `GameEngine.add_upgrade_points` (game_engine.py lines 126-166): add the
points; when the current tier has a threshold and the new total reaches it,
subtract the threshold (a single time: no loop), grant one upgrade credit
and append an `upgrade_available` story event. Returns the pre-subtraction
total (the method's return value) and the new state. -/
def add_upgrade_points (s : GameState) (points : ℤ) : ℤ × GameState :=
  let new_points := s.model_upgrade_points + points
  let s1 := { s with model_upgrade_points := new_points }
  match List.lookup s.model_tier upgrade_thresholds with
  | some threshold =>
    if threshold ≤ new_points then
      (new_points,
       { s1 with
         model_upgrade_points := new_points - threshold
         upgrades_available := s1.upgrades_available + 1
         story_events := s1.story_events ++
           [.upgrade_available s.model_tier (get_next_tier s.model_tier)] })
    else (new_points, s1)
  | none => (new_points, s1)

/-- `GameEngine._set_model_tier` (game_engine.py lines 111-124): record the
tier in the state; replace the LLM by a fresh `LLMInterface(tier=tier)` ONLY
when the current LLM `isinstance(.., LLMInterface)` — an
`EnhancedLLMInterface` is not, so in that case the LLM (and hence every
generation parameter it may hold) is left untouched. -/
def set_model_tier (e : Engine) (tier : String) : Engine :=
  let st := { e.state with model_tier := tier }
  match e.llm with
  | .interface _ => { e with state := st, llm := .interface (mk_llm_interface "llama3" tier) }
  | .enhanced s => { e with state := st, llm := .enhanced s }

/-- The dict returned by `GameEngine.upgrade_model`
(game_engine.py lines 210-257). -/
inductive UpgradeResult where
  | failure (message current_tier : String)
  | success (message old_tier current_tier : String) (tier_info : TierInfo)
deriving DecidableEq

/-- The `tier_info` field of a successful `upgrade_model` result. -/
def upgrade_result_tier_info : UpgradeResult → Option TierInfo
  | .failure _ _ => none
  | .success _ _ _ ti => some ti

/-- `GameEngine.upgrade_model` (game_engine.py lines 210-257): fail on no
credit, fail at the highest tier, otherwise advance to the next tier via
`_set_model_tier`, consume one credit, append a `model_upgraded` story
event, and return the old/new tiers plus `self.llm.get_current_tier_info()`. -/
def upgrade_model (e : Engine) : UpgradeResult × Engine :=
  if e.state.upgrades_available ≤ 0 then
    (.failure "No upgrades available" e.state.model_tier, e)
  else
    let current_tier := e.state.model_tier
    match get_next_tier current_tier with
    | none => (.failure "Already at highest tier" current_tier, e)
    | some nt =>
      let e1 := set_model_tier e nt
      let e2 :=
        { e1 with state :=
          { e1.state with
            upgrades_available := e1.state.upgrades_available - 1
            story_events := e1.state.story_events ++ [.model_upgraded current_tier nt] } }
      (.success ("Upgraded from " ++ current_tier ++ " to " ++ nt) current_tier nt
         (get_current_tier_info e2.llm), e2)

/-- An entry of `GameEngine.available_buffs` (game_engine.py lines 68-109). -/
structure AvailableBuff where
  description : String
  duration : ℤ
deriving DecidableEq

/-- `GameEngine.available_buffs` (game_engine.py lines 68-109), dict
insertion order. Set once in `__init__`, never mutated. -/
def available_buffs : List (String × AvailableBuff) :=
  [ ("poetic", ⟨"Makes the narrative more poetic and flowery", 3⟩),
    ("noir", ⟨"Adds a detective noir style to the narrative", 2⟩),
    ("musical", ⟨"Characters occasionally break into song", 2⟩),
    ("dramatic", ⟨"Adds dramatic flair and over-the-top reactions", 3⟩),
    ("cosmic", ⟨"Introduces cosmic and existential elements", 2⟩),
    ("ghostly", ⟨"Adds supernatural and ghostly elements", 3⟩),
    ("miniature", ⟨"Everything becomes tiny and adorable", 2⟩),
    ("gigantic", ⟨"Everything becomes enormous and imposing", 2⟩),
    ("time_loop", ⟨"Creates minor time loops and d\xe9j\xe0 vu moments", 3⟩),
    ("shakespearean", ⟨"Characters speak in Shakespearean English", 2⟩) ]

/-- The old-system branch of `GameEngine.add_buff`
(game_engine.py lines 372-391). -/
def add_buff_old (e : Engine) (buff_name : String) : Bool × Engine :=
  match List.lookup buff_name available_buffs with
  | none => (false, e)
  | some info =>
    (true,
     { e with state :=
       { e.state with
         buffs := e.state.buffs ++ [⟨buff_name, info.description, info.duration, info.duration⟩]
         story_events := e.state.story_events ++ [.buff_added buff_name info.description] } })

/-- `GameEngine.add_buff` (game_engine.py lines 340-391). Both interfaces
have `add_modifier`, so the `hasattr` branch is always taken first; with an
`LLMInterface`, a registry hit appends the fresh modifier plus a
backward-compatibility state buff and a story event. With an
`EnhancedLLMInterface`, `add_modifier` returns a bool: on a registry hit the
source then evaluates `modifier.name` on `True` and raises
`AttributeError` (the llm mutation preceding the raise is dropped by this
model); on a miss it falls through to the old system. -/
def add_buff (e : Engine) (buff_name : String) : Except String (Bool × Engine) :=
  match e.llm with
  | .interface s =>
    match lli_add_modifier s buff_name with
    | (some m, s') =>
      .ok (true,
        { e with
          llm := .interface s'
          state :=
          { e.state with
            story_events := e.state.story_events ++ [.buff_added m.name m.description]
            buffs := e.state.buffs ++ [⟨m.name, m.description, m.duration, m.turns_remaining⟩] } })
    | (none, _) => .ok (add_buff_old e buff_name)
  | .enhanced s =>
    match enh_add_modifier s buff_name with
    | (true, _) => .error "AttributeError: bool object has no attribute name"
    | (false, _) => .ok (add_buff_old e buff_name)

/-- The LLM side of `GameEngine._update_buffs`: `self.llm.update_modifiers()`
(both interfaces have it, so the `hasattr` branch at game_engine.py line 402
is always taken). Returns the expired names and the updated LLM. -/
def llm_update_modifiers : LLM → List String × LLM
  | .interface s =>
    let (ex, _, upd) := update_modifiers s.active_modifiers
    (ex, .interface { s with active_modifiers := upd })
  | .enhanced s =>
    let (ex, rem, reg') := enh_update_modifiers s.registry s.active_modifiers
    (ex, .enhanced { s with registry := reg', active_modifiers := rem })

/-- `GameEngine._update_buffs` (game_engine.py lines 393-434): update the
LLM modifiers and append `buff_expired` events for them, then decrement the
backward-compatibility `state["buffs"]`, partition it, and append
`buff_expired` events for the expired buffs. (The expired-buff list the
method returns is ignored by its only caller and omitted here.) -/
def update_buffs (e : Engine) : Engine :=
  let (expired_mods, llm') := llm_update_modifiers e.llm
  let decremented := e.state.buffs.map (fun b => { b with turns_remaining := b.turns_remaining - 1 })
  let expired := decremented.filter (fun b => b.turns_remaining ≤ 0)
  let active := decremented.filter (fun b => 0 < b.turns_remaining)
  { e with
    llm := llm'
    state :=
    { e.state with
      buffs := active
      story_events := e.state.story_events ++ expired_mods.map Event.buff_expired
        ++ expired.map (fun b => Event.buff_expired b.name) } }

/-- `random.choice` on a nonempty sequence: `seq[randrange(len(seq))]`, with
the raw index injected. -/
def pick_mem (l : List Memory) (idx : ℕ) : Memory :=
  l.getD (idx % l.length) ⟨"", "", ⟨"", "", ""⟩⟩

/-- Python `str.title()`: uppercase every cased character that follows a
non-cased one, lowercase the rest (used only inside notification strings). -/
def py_title_chars : Bool → List Char → List Char
  | _, [] => []
  | prev, c :: rest =>
    let a := c.isAlpha
    let c' := if a && !prev then c.toUpper else if a then c.toLower else c
    c' :: py_title_chars a rest

/-- Python `str.title()` on a string. -/
def py_title (s : String) : String := ⟨py_title_chars false s.data⟩

/-- The choice-list parsing of `GameEngine._generate_choices`
(game_engine.py lines 679-697): split the generated text on newlines, strip
each line, drop empty lines and lines starting with "Choice"; fewer than 2
survivors yields the fixed 2-option default, more than 4 is truncated to the
first 4. (The `except` fallback at lines 694-697 is dead: the parsing body
cannot raise.) -/
def parse_choices (choices_text : String) : List String :=
  let choices := ((choices_text.splitOn "\n").map String.trim).filter
    (fun c => !(c == "") && !(c.startsWith "Choice"))
  if choices.length < 2 then ["Continue the adventure", "Try something else"]
  else if 4 < choices.length then choices.take 4
  else choices

/-- `GameEngine._generate_choices` (game_engine.py lines 651-697) minus the
generation call: record the optional memory-based-choice hint (15% roll,
only with memories; it then only shapes the prompt) and install the parsed
choice list. `choices_text` is the text returned by `llm.generate`. -/
def generate_choices_step (e : Engine) (memory_roll : Bool) (memory_idx : ℕ)
    (choices_text : String) : Engine :=
  let lcm := if memory_roll && !e.state.past_memories.isEmpty then
    some (pick_mem e.state.past_memories memory_idx) else none
  { e with last_choice_memory := lcm, choices := parse_choices choices_text }

/-- `GameEngine._generate_chaotic_event` (game_engine.py lines 699-734) minus
the generation call: record the optional past-memory reference (25% roll,
only with memories) in `last_chaotic_memory` and return the generated text
(injected). -/
def generate_chaotic_event_step (e : Engine) (memory_roll : Bool)
    (memory_idx : ℕ) (event_text : String) : String × Engine :=
  let lcm := if memory_roll && !e.state.past_memories.isEmpty then
    some (pick_mem e.state.past_memories memory_idx) else none
  (event_text, { e with last_chaotic_memory := lcm })

/-- The game-over suffix appended at game_engine.py line 552. -/
def game_over_message : String :=
  "\n\n🔚 GAME OVER 🔚\nYour adventure has come to an unexpected end!"

/-- The injected stochastic and generated inputs of one
`GameEngine.make_choice` call, one field per `random.*` call outcome or
`llm.generate` result, in source order (game_engine.py lines 486-640,
llm_interface.py lines 375-392, game_engine.py lines 651-734). -/
structure TurnOracle where
  include_memory_roll : Bool
  memory_idx : ℕ
  game_over_roll : Bool
  choice_response_text : String
  chaotic_roll : Bool
  chaotic_memory_roll : Bool
  chaotic_memory_idx : ℕ
  chaotic_event_text : String
  modifier_trigger_roll : Bool
  modifier_is_buff_roll : Bool
  modifier_pick_idx : ℕ
  old_buff_roll : Bool
  old_buff_pick_idx : ℕ
  points_roll : Bool
  points_amount : ℤ
  choice_memory_roll : Bool
  choice_memory_idx : ℕ
  choices_text : String
deriving DecidableEq

/-- The random-modifier block of `make_choice` (game_engine.py lines
582-617). Only `LLMInterface` has `maybe_add_random_modifier`, so the new
system runs exactly when the LLM is an `LLMInterface`; with an
`EnhancedLLMInterface` the legacy block runs: a 10% roll, the candidate pool
is `available_buffs` keys minus the active state-buff names, and `add_buff`
is called on a uniformly chosen candidate. Returns the engine and the
accumulated response text. -/
def modifier_step (e : Engine) (o : TurnOracle) (response_text : String) :
    Except String (Engine × String) :=
  match e.llm with
  | .interface s =>
    let (mopt, s') := lli_maybe_add_random_modifier s o.modifier_trigger_roll
      o.modifier_is_buff_roll o.modifier_pick_idx
    let e1 := { e with llm := .interface s' }
    match mopt with
    | some m =>
      .ok ({ e1 with state :=
        { e1.state with
          story_events := e1.state.story_events ++ [.buff_added m.name m.description]
          buffs := e1.state.buffs ++ [⟨m.name, m.description, m.duration, m.turns_remaining⟩] } },
        response_text ++ "\n\nNarrative Effect Activated: " ++ m.name ++ " - "
          ++ m.description ++ "!")
    | none => .ok (e1, response_text)
  | .enhanced _ =>
    if o.old_buff_roll then
      let names := available_buffs.map Prod.fst
      let active_names := e.state.buffs.map StateBuff.name
      let candidates := names.filter (fun b => !(active_names.contains b))
      if candidates.isEmpty then .ok (e, response_text)
      else
        let new_buff := candidates.getD (o.old_buff_pick_idx % candidates.length) ""
        match add_buff e new_buff with
        | .error msg => .error msg
        | .ok (_, e1) =>
          match List.lookup new_buff available_buffs with
          | some info =>
            .ok (e1, response_text ++ "\n\nNarrative Effect Activated: "
              ++ py_title new_buff ++ " - " ++ info.description ++ "!")
          | none => .error "KeyError"
    else .ok (e, response_text)

/-- The upgrade-point block of `make_choice` (game_engine.py lines 619-635):
on a 15% roll, award `randint(1, 2)` points (amount injected), then notify —
with a pending upgrade the notification calls `.title()` on
`_get_next_tier`, which raises `AttributeError` when that is `None`
(upgrades pending while at the highest tier). -/
def points_step (e : Engine) (o : TurnOracle) (response_text : String) :
    Except String (Engine × String) :=
  if o.points_roll then
    let points := o.points_amount
    let (total_points, st') := add_upgrade_points e.state points
    let e1 := { e with state := st' }
    if 0 < e1.state.upgrades_available then
      let current_tier := e1.state.model_tier
      match get_next_tier current_tier with
      | some nt =>
        .ok (e1, response_text ++ "\n\n🌟 Model Upgrade Available! 🌟\nYour narrative model can be upgraded from "
          ++ py_title current_tier ++ " to " ++ py_title nt ++ ".")
      | none => .error "AttributeError: NoneType object has no attribute title"
    else
      .ok (e1, response_text ++ "\n\n✨ You earned " ++ toString points
        ++ " model upgrade point" ++ (if 1 < points then "s" else "") ++ "! ("
        ++ toString total_points ++ "/"
        ++ toString (get_points_needed_for_upgrade e1.state)
        ++ " needed for next upgrade)")
  else .ok (e, response_text)

/-- The dict returned by `GameEngine.make_choice`. -/
structure ChoiceResult where
  text : String
  game_over : Bool
deriving DecidableEq

/-- `GameEngine.make_choice` (game_engine.py lines 486-640). Out-of-range
indices return the invalid-choice result with no state change. Otherwise:
tick buffs/modifiers; optionally record a past-memory reference (20% roll);
roll the terminal outcome (10%); append the `player_choice` event. On game
over, return with the game-over suffix — the choice list is left as it was
and nothing marks the engine as finished. Otherwise run the chaotic-event
(30%), random-modifier, and upgrade-point blocks, regenerate the choices and
return. The chaotic-event story entry reads `last_chaotic_memory` from
BEFORE this turn's `_generate_chaotic_event` call (source lines 560-563). -/
def make_choice (e : Engine) (choice_index : ℤ) (o : TurnOracle) :
    Except String (ChoiceResult × Engine) :=
  if 0 ≤ choice_index ∧ choice_index < e.choices.length then
    let selected_choice := e.choices.getD choice_index.toNat ""
    let e1 := update_buffs e
    let include_memory := o.include_memory_roll && !e1.state.past_memories.isEmpty
    let e2 := { e1 with last_used_memory :=
      if include_memory then some (pick_mem e1.state.past_memories o.memory_idx) else none }
    let game_over := o.game_over_roll
    let response_text := o.choice_response_text
    let e3 := { e2 with state :=
      { e2.state with story_events := e2.state.story_events ++
        [.player_choice selected_choice response_text game_over] } }
    if game_over then
      .ok (⟨response_text ++ game_over_message, true⟩, e3)
    else
      let p :=
        if o.chaotic_roll then
          let chaotic_memory := e3.last_chaotic_memory
          let (ctext, e4a) := generate_chaotic_event_step e3 o.chaotic_memory_roll
            o.chaotic_memory_idx o.chaotic_event_text
          ({ e4a with state :=
            { e4a.state with story_events := e4a.state.story_events ++
              [.chaotic_event ctext chaotic_memory] } },
           response_text ++ "\n\n" ++ ctext)
        else (e3, response_text)
      match modifier_step p.1 o p.2 with
      | .error msg => .error msg
      | .ok (e5, r3) =>
        match points_step e5 o r3 with
        | .error msg => .error msg
        | .ok (e6, r4) =>
          let e7 := generate_choices_step e6 o.choice_memory_roll
            o.choice_memory_idx o.choices_text
          .ok (⟨r4, false⟩, e7)
  else .ok (⟨"Invalid choice. Please try again.", false⟩, e)

/-- The injected inputs of one `GameEngine.start_game` call:
fresh id/timestamp, the memories loaded from disk by `_load_past_memories`
(file sampling is modeled by `load_past_memories` below), the generated
intro text, and the `_generate_choices` inputs. -/
structure StartOracle where
  game_id : String
  start_time : String
  loaded_memories : List Memory
  intro_text : String
  choice_memory_roll : Bool
  choice_memory_idx : ℕ
  choices_text : String
deriving DecidableEq

/-- `GameEngine.start_game` (game_engine.py lines 274-338): fresh id and
timestamp, set the player, apply a valid chaos level to state and LLM, clear
buffs/events/memorable elements, reset the tier to "basic" and the point
economy to zero, reload past memories, append the intro event, and generate
the initial choice list. Returns the intro text and the new engine. -/
def start_game (e : Engine) (player_name : String) (chaos_level : Option ℤ)
    (o : StartOracle) : String × Engine :=
  let st1 := { e.state with
    game_id := o.game_id
    start_time := o.start_time
    player_name := player_name }
  let q := match chaos_level with
    | some c =>
      if 1 ≤ c ∧ c ≤ 10 then ({ st1 with chaos_level := c }, llm_set_chaos_level e.llm c)
      else (st1, e.llm)
    | none => (st1, e.llm)
  let st2 := q.1
  let llm1 := q.2
  let st3 := { st2 with buffs := [], story_events := [], memorable_elements := [] }
  let e1 := set_model_tier { e with state := st3, llm := llm1 } "basic"
  let st4 := { e1.state with
    model_upgrade_points := 0
    upgrades_available := 0
    past_memories := o.loaded_memories }
  let st5 := { st4 with story_events := st4.story_events ++ [.intro o.intro_text] }
  let e2 := generate_choices_step { e1 with state := st5 } o.choice_memory_roll
    o.choice_memory_idx o.choices_text
  (o.intro_text, e2)

/-- A parsed memory file (game_engine.py lines 762-775; the `.get` defaults
for missing keys are absorbed into the field values). -/
structure MemoryFile where
  player_name : String
  game_id : String
  end_time : String
  memorable_elements : List MemElem
deriving DecidableEq

/-- The `Memory` built from a file element plus attribution
(game_engine.py lines 770-785). -/
def attach_attribution (f : MemoryFile) (el : MemElem) : Memory :=
  { text := el.text, mtype := el.mtype,
    attribution := ⟨f.player_name, f.game_id, f.end_time⟩ }

/-- `GameEngine._load_past_memories` (game_engine.py lines 736-794) as a
function of the parsed memory files on disk (directory listing / JSON
parsing are I/O and injected; a file whose JSON fails to parse is simply
absent from the list, matching the `except: continue`). `sample_files` and
`sample_elems` realize `random.sample(lst, k)` (the theorems constrain them
to return `k` elements drawn without replacement), `shuffle` realizes
`random.shuffle` (constrained to a permutation). No files yields no
memories; otherwise sample `min 3` files, from each nonempty file sample
`min 2` elements and attach attribution, shuffle the concatenation and cap
it at 5. -/
def load_past_memories (memory_files : List MemoryFile)
    (sample_files : List MemoryFile → ℕ → List MemoryFile)
    (sample_elems : List MemElem → ℕ → List MemElem)
    (shuffle : List Memory → List Memory) : List Memory :=
  if memory_files.isEmpty then []
  else
    let selected_files := sample_files memory_files (min 3 memory_files.length)
    let gathered := selected_files.flatMap (fun f =>
      if f.memorable_elements.isEmpty then []
      else
        (sample_elems f.memorable_elements (min 2 f.memorable_elements.length)).map
          (attach_attribution f))
    (shuffle gathered).take 5

/-! ## Theorems -/

theorem try_fallbacks_all_error (l : List (Except String String))
    (h : ∀ f ∈ l, is_error f = true) :
    try_fallbacks l = (safe_fallback_text, l) := by
  induction l with
  | nil => rfl
  | cons f rest ih =>
    cases f with
    | ok t => simpa [is_error] using h _ (List.mem_cons_self _ _)
    | error m =>
      have hr := ih (fun x hx => h x (List.mem_cons_of_mem _ hx))
      simp [try_fallbacks, hr]

theorem try_fallbacks_first_ok (pre : List (Except String String)) (t : String)
    (rest : List (Except String String)) (h : ∀ f ∈ pre, is_error f = true) :
    try_fallbacks (pre ++ .ok t :: rest) = (t, pre ++ [Except.ok t]) := by
  induction pre with
  | nil => rfl
  | cons f pre ih =>
    cases f with
    | ok u => simpa [is_error] using h _ (List.mem_cons_self _ _)
    | error m =>
      have hr := ih (fun x hx => h x (List.mem_cons_of_mem _ hx))
      simp [try_fallbacks, hr]

/-- C1: `EnhancedLLMInterface.generate` is total (it returns a string, never
an exception). When the primary provider fails and every fallback fails, it
returns exactly the fixed safe fallback string, having invoked each fallback
exactly once, in list order (the invocation trace equals the fallback list).
When the primary fails and some fallback succeeds, the fallbacks are invoked
in order up to and including the first success, whose text is returned. When
the primary succeeds, its text is returned and no fallback is invoked. -/
theorem generate_fallback_chain_spec (err : String)
    (fallbacks : List (Except String String)) :
    ((∀ f ∈ fallbacks, is_error f = true) →
      enhanced_generate (.error err) fallbacks = (safe_fallback_text, fallbacks))
    ∧ (∀ (pre : List (Except String String)) (t : String)
        (rest : List (Except String String)), (∀ f ∈ pre, is_error f = true) →
      enhanced_generate (.error err) (pre ++ .ok t :: rest) = (t, pre ++ [Except.ok t]))
    ∧ (∀ t : String, enhanced_generate (.ok t) fallbacks = (t, [])) :=
  ⟨fun h => try_fallbacks_all_error fallbacks h,
   fun pre t rest h => try_fallbacks_first_ok pre t rest h,
   fun _ => rfl⟩

/-- Witness for C1: all providers fail on one concrete chain; first fallback
succeeds on another. -/
theorem generate_fallback_chain_witness :
    enhanced_generate (.error "primary down")
        [Except.error "ollama down", Except.error "mock down"]
      = (safe_fallback_text, [Except.error "ollama down", Except.error "mock down"])
    ∧ enhanced_generate (.error "primary down")
        ([Except.error "ollama down"] ++ Except.ok "recovered" :: [Except.error "later"])
      = ("recovered", [Except.error "ollama down"] ++ [Except.ok "recovered"]) :=
  ⟨(generate_fallback_chain_spec "primary down" _).1 (by decide),
   (generate_fallback_chain_spec "primary down" []).2.1
     [Except.error "ollama down"] "recovered" [Except.error "later"] (by decide)⟩

/-- C4: for positive `n`, when the current tier has threshold `τ` and the new
total reaches it, `add_upgrade_points` leaves `points_before + n − τ` points,
grants exactly one upgrade credit (even if the total crosses several
thresholds) and appends the upgrade-available story event; below the
threshold it leaves `points_before + n` points and changes neither the
credit count nor the story. -/
theorem add_upgrade_points_spec (s : GameState) (n τ : ℤ) (hn : 0 < n)
    (hτ : List.lookup s.model_tier upgrade_thresholds = some τ) :
    (τ ≤ s.model_upgrade_points + n →
      (add_upgrade_points s n).2.model_upgrade_points = s.model_upgrade_points + n - τ ∧
      (add_upgrade_points s n).2.upgrades_available = s.upgrades_available + 1 ∧
      (add_upgrade_points s n).2.story_events = s.story_events ++
        [.upgrade_available s.model_tier (get_next_tier s.model_tier)])
    ∧ (s.model_upgrade_points + n < τ →
      (add_upgrade_points s n).2.model_upgrade_points = s.model_upgrade_points + n ∧
      (add_upgrade_points s n).2.upgrades_available = s.upgrades_available ∧
      (add_upgrade_points s n).2.story_events = s.story_events) := by
  constructor
  · intro h
    simp [add_upgrade_points, hτ, h]
  · intro h
    have h' : ¬ (τ ≤ s.model_upgrade_points + n) := by omega
    simp [add_upgrade_points, hτ, h']

/-- Witness for C4, the spec's own scenario: tier "basic" (threshold 5) with
0 points; awarding 5 points leaves 0 points, one credit, and the event. -/
theorem add_upgrade_points_witness :
    (add_upgrade_points
      { player_name := "Ann", story_events := [], chaos_level := 7, buffs := [],
        memorable_elements := [], past_memories := [], game_id := "adv_1",
        start_time := "t0", model_tier := "basic", model_upgrade_points := 0,
        upgrades_available := 0 } 5).2.model_upgrade_points = 0 ∧
    (add_upgrade_points
      { player_name := "Ann", story_events := [], chaos_level := 7, buffs := [],
        memorable_elements := [], past_memories := [], game_id := "adv_1",
        start_time := "t0", model_tier := "basic", model_upgrade_points := 0,
        upgrades_available := 0 } 5).2.upgrades_available = 1 := by
  have h := add_upgrade_points_spec
    { player_name := "Ann", story_events := [], chaos_level := 7, buffs := [],
      memorable_elements := [], past_memories := [], game_id := "adv_1",
      start_time := "t0", model_tier := "basic", model_upgrade_points := 0,
      upgrades_available := 0 } 5 5 (by decide) (by decide)
  have h2 := h.1 (by decide)
  refine ⟨?_, ?_⟩
  · rw [h2.1]; decide
  · rw [h2.2.1]; decide

/-- The new active-modifier list after one `update_modifiers` tick. -/
def tick_active (mods : List NarrativeModifier) : List NarrativeModifier :=
  (update_modifiers mods).2.2

/-- One tick decrements every modifier by exactly 1 and keeps exactly those
still positive. -/
theorem update_modifiers_active_eq (ms : List NarrativeModifier) :
    (update_modifiers ms).2.2 =
      (ms.map (fun x => { x with turns_remaining := x.turns_remaining - 1 })).filter
        (fun x => 0 < x.turns_remaining) := by
  induction ms with
  | nil => rfl
  | cons m rest ih =>
    simp only [update_modifiers, decrement_duration, List.map_cons, List.filter_cons]
    split
    · simp_all [tick_active]
    · simp_all [tick_active]

/-- One tick reports as expired exactly those decremented to ≤ 0, by name. -/
theorem update_modifiers_expired_eq (ms : List NarrativeModifier) :
    (update_modifiers ms).1 =
      ((ms.map (fun x => { x with turns_remaining := x.turns_remaining - 1 })).filter
        (fun x => x.turns_remaining ≤ 0)).map NarrativeModifier.name := by
  induction ms with
  | nil => rfl
  | cons m rest ih =>
    simp only [update_modifiers, decrement_duration, List.map_cons, List.filter_cons]
    by_cases h : 0 < m.turns_remaining - 1
    · rw [if_pos (by simpa using h), ih]
      have hx : ¬ ({ m with turns_remaining := m.turns_remaining - 1 } :
          NarrativeModifier).turns_remaining ≤ 0 := by
        simp only []
        omega
      simp [hx]
    · rw [if_neg (by simpa using h), ih]
      have hx : ({ m with turns_remaining := m.turns_remaining - 1 } :
          NarrativeModifier).turns_remaining ≤ 0 := by
        simp only []
        omega
      simp [hx]

theorem tick_active_nil : tick_active [] = [] := rfl

theorem tick_active_singleton (m : NarrativeModifier) :
    tick_active [m] =
      if 0 < m.turns_remaining - 1
      then [{ m with turns_remaining := m.turns_remaining - 1 }] else [] := by
  simp only [tick_active, update_modifiers, decrement_duration]
  split <;> simp_all

/-- C5: each `update_modifiers` tick decrements every active modifier's
remaining count by exactly 1, and a modifier is dropped from the active set
exactly when the decremented count is no longer positive (its name is then
reported expired); consequently a single modifier with `n > 0` remaining
turns survives `k` ticks exactly when `k < n` (with `n − k` turns left) —
in particular with duration 3 it is present after ticks 1 and 2 and absent
after tick 3. -/
theorem modifier_tick_lifecycle (ms : List NarrativeModifier)
    (m : NarrativeModifier) (k : ℕ) (h : 0 < m.turns_remaining) :
    ((update_modifiers ms).2.2 =
      (ms.map (fun x => { x with turns_remaining := x.turns_remaining - 1 })).filter
        (fun x => 0 < x.turns_remaining))
    ∧ ((update_modifiers ms).1 =
      ((ms.map (fun x => { x with turns_remaining := x.turns_remaining - 1 })).filter
        (fun x => x.turns_remaining ≤ 0)).map NarrativeModifier.name)
    ∧ (tick_active^[k] [m] =
      if (k : ℤ) < m.turns_remaining
      then [{ m with turns_remaining := m.turns_remaining - k }] else []) := by
  refine ⟨update_modifiers_active_eq ms, update_modifiers_expired_eq ms, ?_⟩
  induction k generalizing m with
  | zero =>
    simp only [Function.iterate_zero, id_eq]
    rw [if_pos (by exact_mod_cast h)]
    simp
  | succ k ih =>
    rw [Function.iterate_succ_apply, tick_active_singleton]
    by_cases h1 : 0 < m.turns_remaining - 1
    · rw [if_pos h1, ih _ h1]
      by_cases h2 : (k : ℤ) < m.turns_remaining - 1
      · rw [if_pos h2, if_pos (by push_cast; omega)]
        simp
        omega
      · rw [if_neg h2, if_neg (by push_cast; omega)]
    · rw [if_neg h1]
      have : tick_active^[k] ([] : List NarrativeModifier) = [] :=
        Function.iterate_fixed tick_active_nil k
      rw [this, if_neg (by push_cast; omega)]

/-- Witness for C5, the spec's own scenario: a fresh copy of the duration-3
registry modifier "poetic_inspiration" is present after ticks 1 and 2 and
absent after tick 3. -/
theorem modifier_tick_lifecycle_witness :
    tick_active^[1] [mk_narrative_modifier "Poetic Inspiration"
      "Makes the narrative more poetic and flowery" "p" true 3 1.2] ≠ []
    ∧ tick_active^[2] [mk_narrative_modifier "Poetic Inspiration"
      "Makes the narrative more poetic and flowery" "p" true 3 1.2] ≠ []
    ∧ tick_active^[3] [mk_narrative_modifier "Poetic Inspiration"
      "Makes the narrative more poetic and flowery" "p" true 3 1.2] = [] := by
  have h1 := (modifier_tick_lifecycle [] (mk_narrative_modifier "Poetic Inspiration"
    "Makes the narrative more poetic and flowery" "p" true 3 1.2) 1 (by decide)).2.2
  have h2 := (modifier_tick_lifecycle [] (mk_narrative_modifier "Poetic Inspiration"
    "Makes the narrative more poetic and flowery" "p" true 3 1.2) 2 (by decide)).2.2
  have h3 := (modifier_tick_lifecycle [] (mk_narrative_modifier "Poetic Inspiration"
    "Makes the narrative more poetic and flowery" "p" true 3 1.2) 3 (by decide)).2.2
  refine ⟨?_, ?_, ?_⟩
  · rw [h1]; simp [mk_narrative_modifier]
  · rw [h2]; simp [mk_narrative_modifier]
  · rw [h3]; simp [mk_narrative_modifier]

/-- C7: under the `random.sample` contract (a result of exactly the requested
length, drawn without replacement, i.e. a sub-permutation) and the
`random.shuffle` contract (a permutation), `_load_past_memories` returns no
memories when no memory files exist; never more than 5 memories however many
files exist; never more than 2 memories per selected file with at most 3
selected files; and every returned memory is a memorable element of one of
the files decorated with that file's attribution. -/
theorem memory_sampling_bounds (memory_files : List MemoryFile)
    (sample_files : List MemoryFile → ℕ → List MemoryFile)
    (sample_elems : List MemElem → ℕ → List MemElem)
    (shuffle : List Memory → List Memory)
    (hsf : ∀ l n, n ≤ l.length →
      (sample_files l n).length = n ∧ List.Subperm (sample_files l n) l)
    (hse : ∀ l n, n ≤ l.length →
      (sample_elems l n).length = n ∧ List.Subperm (sample_elems l n) l)
    (hsh : ∀ l, List.Perm (shuffle l) l) :
    (memory_files = [] →
      load_past_memories memory_files sample_files sample_elems shuffle = [])
    ∧ (load_past_memories memory_files sample_files sample_elems shuffle).length ≤ 5
    ∧ (load_past_memories memory_files sample_files sample_elems shuffle).length
        ≤ 2 * min 3 memory_files.length
    ∧ (∀ r ∈ load_past_memories memory_files sample_files sample_elems shuffle,
        ∃ f ∈ memory_files, ∃ el ∈ f.memorable_elements, r = attach_attribution f el) := by
  by_cases hempty : memory_files.isEmpty
  · rw [List.isEmpty_iff] at hempty
    subst hempty
    simp [load_past_memories]
  · have hne : ¬ memory_files = [] := by
      intro hc; rw [hc] at hempty; simp at hempty
    have hload : load_past_memories memory_files sample_files sample_elems shuffle =
        (shuffle ((sample_files memory_files (min 3 memory_files.length)).flatMap (fun f =>
          if f.memorable_elements.isEmpty then []
          else
            (sample_elems f.memorable_elements (min 2 f.memorable_elements.length)).map
              (attach_attribution f)))).take 5 := by
      simp [load_past_memories, hempty]
    have hfsel := hsf memory_files (min 3 memory_files.length)
      (min_le_right 3 memory_files.length)
    -- each selected file contributes at most 2 memories
    have hper : ∀ f ∈ sample_files memory_files (min 3 memory_files.length),
        ((if f.memorable_elements.isEmpty then []
          else
            (sample_elems f.memorable_elements (min 2 f.memorable_elements.length)).map
              (attach_attribution f)).length) ≤ 2 := by
      intro f _
      by_cases hfe : f.memorable_elements.isEmpty
      · simp [hfe]
      · have := (hse f.memorable_elements (min 2 f.memorable_elements.length)
          (min_le_right 2 f.memorable_elements.length)).1
        simp [hfe, this]
    have hgathered : ((sample_files memory_files (min 3 memory_files.length)).flatMap (fun f =>
        if f.memorable_elements.isEmpty then []
        else
          (sample_elems f.memorable_elements (min 2 f.memorable_elements.length)).map
            (attach_attribution f))).length ≤ 2 * min 3 memory_files.length := by
      rw [List.length_flatMap]
      calc ((sample_files memory_files (min 3 memory_files.length)).map _).sum
          ≤ ((sample_files memory_files (min 3 memory_files.length)).map (fun f =>
              (if f.memorable_elements.isEmpty then []
               else
                 (sample_elems f.memorable_elements (min 2 f.memorable_elements.length)).map
                   (attach_attribution f)).length)).length * 2 := by
            apply List.sum_le_card_nsmul
            intro x hx
            obtain ⟨f, hf, rfl⟩ := List.mem_map.mp hx
            exact hper f hf
        _ = 2 * min 3 memory_files.length := by
            rw [List.length_map, hfsel.1]
            ring
    refine ⟨fun hc => absurd hc hne, ?_, ?_, ?_⟩
    · rw [hload, List.length_take]
      exact min_le_left _ _
    · rw [hload, List.length_take]
      refine le_trans (min_le_right _ _) ?_
      rw [(hsh _).length_eq]
      exact hgathered
    · intro r hr
      rw [hload] at hr
      have hr1 : r ∈ shuffle _ := List.mem_of_mem_take hr
      have hr2 := (hsh _).subset hr1
      obtain ⟨f, hf, hrf⟩ := List.mem_flatMap.mp hr2
      have hfm : f ∈ memory_files := (hfsel.2.subset) hf
      by_cases hfe : f.memorable_elements.isEmpty
      · rw [if_pos hfe] at hrf
        exact absurd hrf (List.not_mem_nil r)
      · rw [if_neg hfe] at hrf
        obtain ⟨el, hel, rfl⟩ := List.mem_map.mp hrf
        have helm : el ∈ f.memorable_elements :=
          ((hse f.memorable_elements (min 2 f.memorable_elements.length)
            (min_le_right _ _)).2.subset) hel
        exact ⟨f, hfm, el, helm, rfl⟩

/-- Witness for C7: four concrete files of three records each, with
prefix-taking samplers (which satisfy the sampling contracts) and the
identity shuffle. -/
theorem memory_sampling_bounds_witness :
    (load_past_memories
      [⟨"Ann", "adv_1", "d1", [⟨"m1", "memory"⟩, ⟨"m2", "memory"⟩, ⟨"m3", "memory"⟩]⟩,
       ⟨"Bob", "adv_2", "d2", [⟨"m4", "memory"⟩, ⟨"m5", "memory"⟩, ⟨"m6", "memory"⟩]⟩,
       ⟨"Cal", "adv_3", "d3", [⟨"m7", "memory"⟩, ⟨"m8", "memory"⟩, ⟨"m9", "memory"⟩]⟩,
       ⟨"Dee", "adv_4", "d4", [⟨"mA", "memory"⟩, ⟨"mB", "memory"⟩, ⟨"mC", "memory"⟩]⟩]
      (fun l n => l.take n) (fun l n => l.take n) id).length ≤ 5 := by
  have h := memory_sampling_bounds
    [⟨"Ann", "adv_1", "d1", [⟨"m1", "memory"⟩, ⟨"m2", "memory"⟩, ⟨"m3", "memory"⟩]⟩,
     ⟨"Bob", "adv_2", "d2", [⟨"m4", "memory"⟩, ⟨"m5", "memory"⟩, ⟨"m6", "memory"⟩]⟩,
     ⟨"Cal", "adv_3", "d3", [⟨"m7", "memory"⟩, ⟨"m8", "memory"⟩, ⟨"m9", "memory"⟩]⟩,
     ⟨"Dee", "adv_4", "d4", [⟨"mA", "memory"⟩, ⟨"mB", "memory"⟩, ⟨"mC", "memory"⟩]⟩]
    (fun l n => l.take n) (fun l n => l.take n) id
    (fun l n hn => ⟨by rw [List.length_take]; omega, (List.take_sublist n l).subperm⟩)
    (fun l n hn => ⟨by rw [List.length_take]; omega, (List.take_sublist n l).subperm⟩)
    (fun l => List.Perm.refl l)
  exact h.2.1

/-- The state of `create_mock_interface(tier="enhanced")`
(enhanced_llm_interface.py lines 327-332): mock provider, registry as
initialized at module load. -/
def mock_enhanced_init : EnhancedState :=
  { provider_type := .mock, tier := "enhanced", chaos_level := 5,
    registry := NARRATIVE_MODIFIERS, active_modifiers := [] }

/-- The `GameEngine.__init__` game state (game_engine.py lines 41-55), with
the time-derived id/timestamp injected. -/
def init_game_state : GameState :=
  { player_name := "", story_events := [], chaos_level := 5, buffs := [],
    memorable_elements := [], past_memories := [], game_id := "adv_0",
    start_time := "t0", model_tier := "basic", model_upgrade_points := 0,
    upgrades_available := 0 }

/-- A default-configuration engine (enhanced mock LLM, as `__init__` builds
when OpenRouter is unavailable) holding one upgrade credit. -/
def mock_engine_one_credit : Engine :=
  { state := { init_game_state with upgrades_available := 1 }, choices := [],
    llm := .enhanced mock_enhanced_init }

/-- C10 (evaluation at the failing input): activating "humorous_twist"
through `EnhancedLLMInterface.add_modifier` and ticking once decrements the
REGISTRY entry itself — the shared `NARRATIVE_MODIFIERS` entry, whose
`turns_remaining` equals its duration 3 at initialization, is left at 2 —
because `add_modifier` appends the registry entry rather than a fresh copy. -/
theorem enhanced_add_modifier_mutates_registry :
    ((List.lookup "humorous_twist"
        (enh_update_modifiers
          (enh_add_modifier mock_enhanced_init "humorous_twist").2.registry
          (enh_add_modifier mock_enhanced_init "humorous_twist").2.active_modifiers).2.2).map
      NarrativeModifier.turns_remaining = some 2)
    ∧ ((List.lookup "humorous_twist" NARRATIVE_MODIFIERS).map
        NarrativeModifier.turns_remaining = some 3)
    ∧ ((List.lookup "humorous_twist" NARRATIVE_MODIFIERS).map
        NarrativeModifier.duration = some 3) := by decide

/-- Case analysis for `_get_next_tier`: a successful lookup is one of the
three consecutive pairs of the progression. -/
theorem get_next_tier_cases (t nt : String) (h : get_next_tier t = some nt) :
    (t = "basic" ∧ nt = "enhanced") ∨ (t = "enhanced" ∧ nt = "advanced")
    ∨ (t = "advanced" ∧ nt = "master") := by
  simp only [get_next_tier, tier_progression, next_in] at h
  split_ifs at h with h1 h2 h3
  · exact Or.inl ⟨h1.symm, (Option.some.inj h).symm⟩
  · exact Or.inr (Or.inl ⟨h2.symm, (Option.some.inj h).symm⟩)
  · exact Or.inr (Or.inr ⟨h3.symm, (Option.some.inj h).symm⟩)

/-- C3 (counterexample to "returns ... plus the new tier's
generation-parameter set"): on the default engine (enhanced mock LLM) with
one credit at tier "basic", the redemption succeeds and advances to
"enhanced", but the returned `tier_info` carries NO `MODEL_TIERS`
generation-parameter set — even though the table has an "enhanced" entry —
because `_set_model_tier` leaves an `EnhancedLLMInterface` untouched and its
`get_current_tier_info` returns provider metadata instead. -/
theorem redeem_upgrade_tier_info_counterexample :
    (upgrade_model mock_engine_one_credit).2.state.model_tier = "enhanced"
    ∧ ((upgrade_result_tier_info (upgrade_model mock_engine_one_credit).1).map
        tier_info_params) = some none
    ∧ (List.lookup "enhanced" MODEL_TIERS).isSome = true := by decide

/-- C3 as amended: `upgrade_model` fails with "No upgrades available" (state
unchanged) without a credit; fails with "Already at highest tier" (state
unchanged) when no next tier exists; otherwise advances exactly to the next
tier of the ordered sequence basic, enhanced, advanced, master (never
skipping, never regressing), decrements the credit count by one, leaves the
points unchanged, appends the tier-upgraded story event, and returns the
old/new tier identifiers together with `llm.get_current_tier_info()` — which
is the new tier's generation-parameter set when the LLM is an
`LLMInterface`, but with the engine's actual `EnhancedLLMInterface` carries
no generation-parameter set and the LLM itself is unchanged. -/
theorem redeem_upgrade_spec (e : Engine) (nt : String) :
    (e.state.upgrades_available ≤ 0 →
      upgrade_model e = (.failure "No upgrades available" e.state.model_tier, e))
    ∧ (0 < e.state.upgrades_available → get_next_tier e.state.model_tier = none →
      upgrade_model e = (.failure "Already at highest tier" e.state.model_tier, e))
    ∧ (0 < e.state.upgrades_available → get_next_tier e.state.model_tier = some nt →
      (upgrade_model e).2.state.model_tier = nt
      ∧ (upgrade_model e).2.state.upgrades_available = e.state.upgrades_available - 1
      ∧ (upgrade_model e).2.state.model_upgrade_points = e.state.model_upgrade_points
      ∧ (upgrade_model e).2.state.story_events =
          e.state.story_events ++ [.model_upgraded e.state.model_tier nt]
      ∧ (upgrade_model e).1 =
          .success ("Upgraded from " ++ e.state.model_tier ++ " to " ++ nt)
            e.state.model_tier nt (get_current_tier_info (upgrade_model e).2.llm)
      ∧ ((e.state.model_tier = "basic" → nt = "enhanced")
         ∧ (e.state.model_tier = "enhanced" → nt = "advanced")
         ∧ (e.state.model_tier = "advanced" → nt = "master"))
      ∧ (∀ s, e.llm = .interface s →
          tier_info_params (get_current_tier_info (upgrade_model e).2.llm) =
            List.lookup nt MODEL_TIERS)
      ∧ (∀ s, e.llm = .enhanced s →
          (upgrade_model e).2.llm = e.llm
          ∧ tier_info_params (get_current_tier_info (upgrade_model e).2.llm) = none)) := by
  refine ⟨fun h => ?_, fun h1 h2 => ?_, fun h1 h2 => ?_⟩
  · simp [upgrade_model, h]
  · have h' : ¬ e.state.upgrades_available ≤ 0 := by omega
    simp [upgrade_model, h', h2]
  · have h' : ¬ e.state.upgrades_available ≤ 0 := by omega
    have hseq := get_next_tier_cases e.state.model_tier nt h2
    have hvalid : (List.lookup nt MODEL_TIERS).isSome := by
      rcases hseq with ⟨-, rfl⟩ | ⟨-, rfl⟩ | ⟨-, rfl⟩ <;> decide
    have hseq' : (e.state.model_tier = "basic" → nt = "enhanced")
        ∧ (e.state.model_tier = "enhanced" → nt = "advanced")
        ∧ (e.state.model_tier = "advanced" → nt = "master") := by
      rcases hseq with ⟨ht, hnt⟩ | ⟨ht, hnt⟩ | ⟨ht, hnt⟩ <;>
        exact ⟨fun h => by simp_all, fun h => by simp_all, fun h => by simp_all⟩
    cases hllm : e.llm with
    | interface s =>
      have htier : (mk_llm_interface "llama3" nt).tier = nt := by
        cases hl : List.lookup nt MODEL_TIERS with
        | some cfg => simp [mk_llm_interface, apply_tier_settings, hvalid, hl]
        | none => rw [hl] at hvalid; simp at hvalid
      have hu : upgrade_model e =
          (.success ("Upgraded from " ++ e.state.model_tier ++ " to " ++ nt)
             e.state.model_tier nt
             (.interfaceInfo
               (List.lookup (mk_llm_interface "llama3" nt).tier MODEL_TIERS)
               (mk_llm_interface "llama3" nt).tier),
           { e with
             llm := .interface (mk_llm_interface "llama3" nt)
             state :=
             { e.state with
               model_tier := nt
               upgrades_available := e.state.upgrades_available - 1
               story_events := e.state.story_events ++
                 [.model_upgraded e.state.model_tier nt] } }) := by
        simp only [upgrade_model, h2]
        rw [if_neg h']
        simp only [set_model_tier, hllm, get_current_tier_info]
      refine ⟨?_, ?_, ?_, ?_, ?_, hseq', ?_, ?_⟩
      · rw [hu]
      · rw [hu]
      · rw [hu]
      · rw [hu]
      · rw [hu]; rfl
      · intro s' _
        rw [hu]
        simp [tier_info_params, get_current_tier_info, htier]
      · intro s' hs'
        simp [hllm] at hs'
    | enhanced s =>
      have hu : upgrade_model e =
          (.success ("Upgraded from " ++ e.state.model_tier ++ " to " ++ nt)
             e.state.model_tier nt
             (.enhancedInfo s.tier (provider_value s.provider_type) s.chaos_level
               s.active_modifiers.length (s.provider_type = .openrouter)),
           { e with
             llm := .enhanced s
             state :=
             { e.state with
               model_tier := nt
               upgrades_available := e.state.upgrades_available - 1
               story_events := e.state.story_events ++
                 [.model_upgraded e.state.model_tier nt] } }) := by
        simp only [upgrade_model, h2]
        rw [if_neg h']
        simp only [set_model_tier, hllm, get_current_tier_info]
      refine ⟨?_, ?_, ?_, ?_, ?_, hseq', ?_, ?_⟩
      · rw [hu]
      · rw [hu]
      · rw [hu]
      · rw [hu]
      · rw [hu]; rfl
      · intro s' hs'
        simp at hs'
      · intro s' _
        rw [hu]
        exact ⟨rfl, rfl⟩

/-- An engine whose LLM is a plain `LLMInterface`, holding one credit. -/
def lli_engine_one_credit : Engine :=
  { state := { init_game_state with upgrades_available := 1 }, choices := [],
    llm := .interface (mk_llm_interface "llama3" "basic") }

/-- Witness for C3: concrete redemptions on both LLM variants from tier
"basic" with one credit. -/
theorem redeem_upgrade_spec_witness :
    (upgrade_model lli_engine_one_credit).2.state.model_tier = "enhanced"
    ∧ (upgrade_model lli_engine_one_credit).2.state.upgrades_available = 0
    ∧ tier_info_params
        (get_current_tier_info (upgrade_model lli_engine_one_credit).2.llm) =
        List.lookup "enhanced" MODEL_TIERS
    ∧ (upgrade_model mock_engine_one_credit).2.llm = mock_engine_one_credit.llm := by
  have h1 := (redeem_upgrade_spec lli_engine_one_credit "enhanced").2.2
    (by decide) (by decide)
  have h2 := (redeem_upgrade_spec mock_engine_one_credit "enhanced").2.2
    (by decide) (by decide)
  refine ⟨h1.1, by rw [h1.2.1]; decide, ?_, ?_⟩
  · exact h1.2.2.2.2.2.2.1 (mk_llm_interface "llama3" "basic") rfl
  · exact (h2.2.2.2.2.2.2.2 mock_enhanced_init rfl).1

/-- The generation parameters an LLM would use on its next `generate` call:
an `LLMInterface` uses the attributes installed by `_apply_tier_settings`
(llm_interface.py lines 498-504); an `EnhancedLLMInterface` holds no
`MODEL_TIERS`-derived parameters at all (its `generate` forwards to provider
objects that manage their own settings), hence `none`. -/
def llm_params : LLM → Option (ℤ × ℚ × ℚ × ℚ × ℚ)
  | .interface s => some (s.max_tokens, s.temperature, s.top_p,
      s.frequency_penalty, s.presence_penalty)
  | .enhanced _ => none

/-- C8 (counterexample to "whenever the tier changes via redemption, the
parameters used by subsequent generation calls are immediately those of the
new tier's table entry"): on the default engine (enhanced mock LLM) with one
credit, redemption moves the session tier to "enhanced", yet the LLM object
is completely unchanged and carries no `MODEL_TIERS` parameters — the
generation parameters in effect are NOT the "enhanced" table entry, which
exists. -/
theorem tier_params_counterexample :
    (upgrade_model mock_engine_one_credit).2.state.model_tier = "enhanced"
    ∧ (upgrade_model mock_engine_one_credit).2.llm = mock_engine_one_credit.llm
    ∧ llm_params (upgrade_model mock_engine_one_credit).2.llm = none
    ∧ (List.lookup "enhanced" MODEL_TIERS).isSome = true :=
  ⟨by decide, rfl, rfl, by decide⟩

/-- C8 as amended: for an `LLMInterface`, the generation parameters are a
pure function of the tier name via the static `MODEL_TIERS` table
(`_apply_tier_settings` installs exactly the table entry, whatever the prior
state), and when the engine's LLM is an `LLMInterface`, `_set_model_tier`
replaces it by a fresh interface so subsequent generation calls use the new
tier's entry; but when the engine's LLM is an `EnhancedLLMInterface` (as the
engine's `__init__` always builds), `_set_model_tier` changes only the
session's tier name and the LLM with its parameters is untouched. -/
theorem tier_params_spec (e : Engine) (t : String) (cfg : TierConfig)
    (hcfg : List.lookup t MODEL_TIERS = some cfg) :
    (∀ s : LLMInterfaceState,
      (apply_tier_settings s t).max_tokens = cfg.max_tokens
      ∧ (apply_tier_settings s t).temperature = cfg.temperature
      ∧ (apply_tier_settings s t).top_p = cfg.top_p
      ∧ (apply_tier_settings s t).frequency_penalty = cfg.frequency_penalty
      ∧ (apply_tier_settings s t).presence_penalty = cfg.presence_penalty)
    ∧ (∀ s : LLMInterfaceState, e.llm = .interface s →
      (set_model_tier e t).llm = .interface (mk_llm_interface "llama3" t)
      ∧ llm_params (set_model_tier e t).llm =
          some (cfg.max_tokens, cfg.temperature, cfg.top_p,
            cfg.frequency_penalty, cfg.presence_penalty)
      ∧ (set_model_tier e t).state.model_tier = t)
    ∧ (∀ s : EnhancedState, e.llm = .enhanced s →
      (set_model_tier e t).llm = e.llm
      ∧ llm_params (set_model_tier e t).llm = llm_params e.llm
      ∧ (set_model_tier e t).state.model_tier = t) := by
  have happ : ∀ s : LLMInterfaceState,
      (apply_tier_settings s t).max_tokens = cfg.max_tokens
      ∧ (apply_tier_settings s t).temperature = cfg.temperature
      ∧ (apply_tier_settings s t).top_p = cfg.top_p
      ∧ (apply_tier_settings s t).frequency_penalty = cfg.frequency_penalty
      ∧ (apply_tier_settings s t).presence_penalty = cfg.presence_penalty := by
    intro s
    have hsome : (List.lookup t MODEL_TIERS).isSome := by rw [hcfg]; rfl
    simp [apply_tier_settings, hsome, hcfg]
  refine ⟨happ, fun s hllm => ?_, fun s hllm => ?_⟩
  · have hmk := happ
      { tier := t
        model_name := "llama3"
        active_modifiers := []
        chaos_level := 5
        max_tokens := 0
        temperature := 0
        top_p := 0
        frequency_penalty := 0
        presence_penalty := 0 }
    have hsome : (List.lookup t MODEL_TIERS).isSome := by rw [hcfg]; rfl
    have hset : (set_model_tier e t).llm = .interface (mk_llm_interface "llama3" t) := by
      rw [set_model_tier, hllm]
    refine ⟨hset, ?_, ?_⟩
    · rw [hset]
      simp only [llm_params, mk_llm_interface, hsome, if_pos]
      exact congrArg some (by
        rw [hmk.1, hmk.2.1, hmk.2.2.1, hmk.2.2.2.1, hmk.2.2.2.2])
    · rw [set_model_tier, hllm]
  · refine ⟨?_, ?_, ?_⟩ <;> rw [set_model_tier, hllm]

/-- Witness for C8: the "advanced" table entry, applied on both LLM
variants. -/
theorem tier_params_spec_witness :
    llm_params (set_model_tier lli_engine_one_credit "advanced").llm =
      some (1200, 0.85, 0.95, 0.2, 0.2)
    ∧ (set_model_tier mock_engine_one_credit "advanced").llm =
        mock_engine_one_credit.llm
    ∧ (set_model_tier mock_engine_one_credit "advanced").state.model_tier =
        "advanced" := by
  have h := tier_params_spec lli_engine_one_credit "advanced"
    { description := "Advanced narrative model with superior storytelling",
      model_name := "llama3", max_tokens := 1200, temperature := 0.85,
      top_p := 0.95, frequency_penalty := 0.2, presence_penalty := 0.2 }
    rfl
  have h2 := tier_params_spec mock_engine_one_credit "advanced"
    { description := "Advanced narrative model with superior storytelling",
      model_name := "llama3", max_tokens := 1200, temperature := 0.85,
      top_p := 0.95, frequency_penalty := 0.2, presence_penalty := 0.2 }
    rfl
  refine ⟨?_, ?_, ?_⟩
  · exact (h.2.1 (mk_llm_interface "llama3" "basic") rfl).2.1
  · exact (h2.2.2 mock_enhanced_init rfl).1
  · exact (h2.2.2 mock_enhanced_init rfl).2.2

/-- C9 (counterexample to "only from entries that are not already in the
active set; a modifier that is already active is never activated a second
time"): with the buff "humorous_twist" already active, a triggered
`maybe_add_random_modifier` whose `random.choice` lands on index 2 of the
buff pool activates "Humorous Twist" AGAIN — the active set then holds two
copies of it. -/
theorem random_modifier_reactivation_counterexample :
    ((lli_add_modifier (mk_llm_interface "llama3" "basic")
        "humorous_twist").2.active_modifiers.map NarrativeModifier.name
      = ["Humorous Twist"])
    ∧ ((lli_maybe_add_random_modifier
          (lli_add_modifier (mk_llm_interface "llama3" "basic") "humorous_twist").2
          true true 2).1.map NarrativeModifier.name = some "Humorous Twist")
    ∧ ((lli_maybe_add_random_modifier
          (lli_add_modifier (mk_llm_interface "llama3" "basic") "humorous_twist").2
          true true 2).2.active_modifiers.map NarrativeModifier.name
      = ["Humorous Twist", "Humorous Twist"]) := by decide

/-- Every buff key looks up to a registry buff. -/
theorem buff_keys_lookup : ∀ k ∈ buff_keys,
    (List.lookup k NARRATIVE_MODIFIERS).map NarrativeModifier.is_buff = some true := by
  decide

/-- Every debuff key looks up to a registry debuff. -/
theorem debuff_keys_lookup : ∀ k ∈ debuff_keys,
    (List.lookup k NARRATIVE_MODIFIERS).map NarrativeModifier.is_buff = some false := by
  decide

theorem getD_mod_mem (l : List String) (idx : ℕ) (h : l ≠ []) :
    l.getD (idx % l.length) "" ∈ l := by
  have hlt : idx % l.length < l.length := Nat.mod_lt _ (List.length_pos.mpr h)
  rw [List.getD_eq_getElem?_getD, List.getElem?_eq_getElem hlt]
  exact List.getElem_mem hlt

/-- C9 as amended: when the per-turn roll triggers,
`maybe_add_random_modifier` draws from the FULL registry key pool of the
selected polarity — the pool does not depend on the active set, an
already-active modifier can be drawn and activated a second time (as the
counterexample shows), and since both polarity pools are nonempty the path
always yields a modifier: a fresh copy of the drawn registry entry, with
remaining turns reset to its full duration, appended to the active set.
(Only the legacy engine fallback at game_engine.py lines 606-616 filters
active names; the `maybe_add_random_modifier` path does not.) -/
theorem random_modifier_pool_spec (s : LLMInterfaceState) (isb : Bool) (idx : ℕ) :
    ∃ tmpl : NarrativeModifier,
      List.lookup ((if isb then buff_keys else debuff_keys).getD
          (idx % (if isb then buff_keys else debuff_keys).length) "")
          NARRATIVE_MODIFIERS = some tmpl
      ∧ tmpl.is_buff = isb
      ∧ lli_maybe_add_random_modifier s true isb idx =
          (some (mk_narrative_modifier tmpl.name tmpl.description
             tmpl.prompt_modifier tmpl.is_buff tmpl.duration tmpl.strength),
           { s with active_modifiers := s.active_modifiers ++
             [mk_narrative_modifier tmpl.name tmpl.description
               tmpl.prompt_modifier tmpl.is_buff tmpl.duration tmpl.strength] })
      ∧ (mk_narrative_modifier tmpl.name tmpl.description tmpl.prompt_modifier
          tmpl.is_buff tmpl.duration tmpl.strength).turns_remaining = tmpl.duration := by
  cases isb with
  | true =>
    have hmem : buff_keys.getD (idx % buff_keys.length) "" ∈ buff_keys :=
      getD_mod_mem buff_keys idx (by decide)
    have hlk := buff_keys_lookup _ hmem
    cases hl : List.lookup (buff_keys.getD (idx % buff_keys.length) "")
        NARRATIVE_MODIFIERS with
    | none => rw [hl] at hlk; simp at hlk
    | some tmpl =>
      rw [hl] at hlk
      refine ⟨tmpl, by simpa using hl, by simpa using hlk, ?_, rfl⟩
      rw [List.getD_eq_getElem?_getD] at hl
      simp [lli_maybe_add_random_modifier, lli_add_random_modifier,
        lli_add_modifier, hl]
  | false =>
    have hmem : debuff_keys.getD (idx % debuff_keys.length) "" ∈ debuff_keys :=
      getD_mod_mem debuff_keys idx (by decide)
    have hlk := debuff_keys_lookup _ hmem
    cases hl : List.lookup (debuff_keys.getD (idx % debuff_keys.length) "")
        NARRATIVE_MODIFIERS with
    | none => rw [hl] at hlk; simp at hlk
    | some tmpl =>
      rw [hl] at hlk
      refine ⟨tmpl, by simpa using hl, by simpa using hlk, ?_, rfl⟩
      rw [List.getD_eq_getElem?_getD] at hl
      simp [lli_maybe_add_random_modifier, lli_add_random_modifier,
        lli_add_modifier, hl]


theorem parse_choices_bounds (t : String) :
    2 ≤ (parse_choices t).length ∧ (parse_choices t).length ≤ 4 := by
  simp only [parse_choices]
  split_ifs with h1 h2
  · simp
  · rw [List.length_take]
    constructor <;> omega
  · omega

theorem update_buffs_choices (e : Engine) : (update_buffs e).choices = e.choices := rfl

theorem update_buffs_story_le (e : Engine) :
    e.state.story_events.length ≤ (update_buffs e).state.story_events.length := by
  simp [update_buffs]

theorem modifier_step_no_roll (e : Engine) (o : TurnOracle) (r : String)
    (hmr : o.modifier_trigger_roll = false) (hor : o.old_buff_roll = false) :
    modifier_step e o r = .ok (e, r) := by
  cases hllm : e.llm with
  | interface s =>
    simp only [modifier_step, hllm, lli_maybe_add_random_modifier, hmr,
      Bool.false_eq_true, if_false]
    rw [← hllm]
  | enhanced s =>
    simp only [modifier_step, hllm, hor]
    rfl

theorem points_step_no_roll (e : Engine) (o : TurnOracle) (r : String)
    (hpr : o.points_roll = false) :
    points_step e o r = .ok (e, r) := by
  simp [points_step, hpr]

/-- A valid-index `make_choice` turn in which the terminal roll fails and
every optional per-turn roll (chaotic event, random modifier, legacy buff,
upgrade points) fails: it succeeds, is not game over, installs the parsed
choice list, and appends exactly one story event after the buff tick. -/
theorem make_choice_quiet (e : Engine) (i : ℤ) (o : TurnOracle)
    (hv : 0 ≤ i ∧ i < e.choices.length)
    (hgo : o.game_over_roll = false) (hcr : o.chaotic_roll = false)
    (hmr : o.modifier_trigger_roll = false) (hor : o.old_buff_roll = false)
    (hpr : o.points_roll = false) :
    ∃ r e', make_choice e i o = .ok (r, e')
      ∧ r.game_over = false
      ∧ e'.choices = parse_choices o.choices_text
      ∧ e'.state.story_events.length
          = (update_buffs e).state.story_events.length + 1 := by
  have hms : ∀ (x : Engine) (t : String), modifier_step x o t = .ok (x, t) :=
    fun x t => modifier_step_no_roll x o t hmr hor
  have hps : ∀ (x : Engine) (t : String), points_step x o t = .ok (x, t) :=
    fun x t => points_step_no_roll x o t hpr
  simp only [make_choice, if_pos hv, hgo, hcr, Bool.false_eq_true, if_false, hms, hps]
  refine ⟨_, _, rfl, rfl, rfl, ?_⟩
  simp [generate_choices_step]

/-- A successful, non-terminal `make_choice` on a valid index always leaves
the parsed choice list, whatever the rolls and generated texts were. -/
theorem make_choice_ok_shape (e : Engine) (i : ℤ) (o : TurnOracle)
    (r : ChoiceResult) (e' : Engine)
    (hv : 0 ≤ i ∧ i < e.choices.length)
    (hok : make_choice e i o = .ok (r, e'))
    (hngo : r.game_over = false) :
    e'.choices = parse_choices o.choices_text := by
  simp only [make_choice, if_pos hv] at hok
  by_cases hgo : o.game_over_roll = true
  · simp only [hgo, if_true] at hok
    simp only [Except.ok.injEq, Prod.mk.injEq] at hok
    rw [← hok.1] at hngo
    simp at hngo
  · rw [Bool.not_eq_true] at hgo
    simp only [hgo, Bool.false_eq_true, if_false] at hok
    split at hok
    · exact absurd hok (by simp)
    · split at hok
      · exact absurd hok (by simp)
      · simp only [Except.ok.injEq, Prod.mk.injEq] at hok
        rw [← hok.2]
        rfl

/-- C6: after every successful non-terminal `make_choice` on a valid index —
for every possible text returned by the generation layer and every outcome
of the per-turn rolls — and after every `start_game`, the current choice
list has between 2 and 4 entries (fewer than 2 parsed options yields the
fixed 2-option default, more than 4 is truncated to the first 4). -/
theorem choice_list_length_bounds (e : Engine) (i : ℤ) (o : TurnOracle)
    (r : ChoiceResult) (e' : Engine) (e₀ : Engine) (pn : String)
    (c : Option ℤ) (so : StartOracle)
    (hv : 0 ≤ i ∧ i < e.choices.length)
    (hok : make_choice e i o = .ok (r, e'))
    (hngo : r.game_over = false) :
    (2 ≤ e'.choices.length ∧ e'.choices.length ≤ 4)
    ∧ (2 ≤ (start_game e₀ pn c so).2.choices.length
       ∧ (start_game e₀ pn c so).2.choices.length ≤ 4) := by
  have h1 := make_choice_ok_shape e i o r e' hv hok hngo
  have h2 : (start_game e₀ pn c so).2.choices = parse_choices so.choices_text := rfl
  rw [h1, h2]
  exact ⟨parse_choices_bounds _, parse_choices_bounds _⟩

/-- A concrete running session: default-configuration engine (enhanced mock
LLM) after an intro, with a 2-option choice list. -/
def sample_engine : Engine :=
  { state := { init_game_state with
      player_name := "Ann"
      story_events := [.intro "Welcome to the Whimsical Woods!"] },
    choices := ["Follow the path deeper into the woods",
                "Examine the glowing mushrooms"],
    llm := .enhanced mock_enhanced_init }

/-- A turn oracle whose terminal roll succeeds and whose optional rolls all
fail. -/
def terminal_oracle : TurnOracle :=
  { include_memory_roll := false, memory_idx := 0, game_over_roll := true,
    choice_response_text := "the end", chaotic_roll := false,
    chaotic_memory_roll := false, chaotic_memory_idx := 0,
    chaotic_event_text := "", modifier_trigger_roll := false,
    modifier_is_buff_roll := false, modifier_pick_idx := 0,
    old_buff_roll := false, old_buff_pick_idx := 0, points_roll := false,
    points_amount := 1, choice_memory_roll := false, choice_memory_idx := 0,
    choices_text := "1. a\n2. b" }

/-- A turn oracle in which every roll fails. -/
def quiet_oracle : TurnOracle :=
  { terminal_oracle with
    game_over_roll := false
    choice_response_text := "the story continues" }

/-- Witness for C6: a concrete quiet turn and a concrete start both leave a
choice list of length in [2, 4]. -/
theorem choice_list_length_bounds_witness :
    ∃ r e', make_choice sample_engine 0 quiet_oracle = .ok (r, e')
      ∧ (2 ≤ e'.choices.length ∧ e'.choices.length ≤ 4)
      ∧ (2 ≤ (start_game sample_engine "Ann" (some 7)
            { game_id := "adv_2", start_time := "t1", loaded_memories := [],
              intro_text := "intro", choice_memory_roll := false,
              choice_memory_idx := 0, choices_text := "only one line" }).2.choices.length
         ∧ (start_game sample_engine "Ann" (some 7)
            { game_id := "adv_2", start_time := "t1", loaded_memories := [],
              intro_text := "intro", choice_memory_roll := false,
              choice_memory_idx := 0, choices_text := "only one line" }).2.choices.length ≤ 4) := by
  obtain ⟨r, e', hok, hngo, -, -⟩ := make_choice_quiet sample_engine 0 quiet_oracle
    ⟨by decide, by decide⟩ rfl rfl rfl rfl rfl
  have h := choice_list_length_bounds sample_engine 0 quiet_oracle r e'
    sample_engine "Ann" (some 7)
    { game_id := "adv_2", start_time := "t1", loaded_memories := [],
      intro_text := "intro", choice_memory_roll := false,
      choice_memory_idx := 0, choices_text := "only one line" }
    ⟨by decide, by decide⟩ hok hngo
  exact ⟨r, e', hok, h.1, h.2⟩

/-- C2 as amended: when the terminal-outcome roll succeeds on a valid-index
`make_choice`, the call returns `game_over = true` and does not regenerate
the choices — but the engine does NOT enter a terminal state: the previous
(non-empty) choice list is left in place, `get_choices` still returns it,
and any subsequent `make_choice` with a valid index is accepted and advances
the story (appending at least one further story event). The empty choice
list on game over exists only in the HTTP layer's one-off response, outside
this core. -/
theorem make_choice_terminal_behavior (e : Engine) (i j : ℤ) (o o' : TurnOracle)
    (hv : 0 ≤ i ∧ i < e.choices.length) (hgo : o.game_over_roll = true)
    (hgo' : o'.game_over_roll = false) (hcr' : o'.chaotic_roll = false)
    (hmr' : o'.modifier_trigger_roll = false) (hor' : o'.old_buff_roll = false)
    (hpr' : o'.points_roll = false) :
    ∃ r e1, make_choice e i o = .ok (r, e1)
      ∧ r.game_over = true
      ∧ get_choices e1 = get_choices e
      ∧ get_choices e1 ≠ []
      ∧ ((0 ≤ j ∧ j < e1.choices.length) →
          ∃ r' e2, make_choice e1 j o' = .ok (r', e2)
            ∧ r'.game_over = false
            ∧ e1.state.story_events.length < e2.state.story_events.length) := by
  have hlen : e.choices ≠ [] := by
    have h0 : (0 : ℤ) < e.choices.length := lt_of_le_of_lt hv.1 hv.2
    intro hc
    rw [hc] at h0
    simp at h0
  have hmc : make_choice e i o = .ok
      (⟨o.choice_response_text ++ game_over_message, true⟩,
       { update_buffs e with
         last_used_memory :=
           if o.include_memory_roll && !(update_buffs e).state.past_memories.isEmpty
           then some (pick_mem (update_buffs e).state.past_memories o.memory_idx)
           else none
         state :=
         { (update_buffs e).state with
           story_events := (update_buffs e).state.story_events ++
             [.player_choice (e.choices.getD i.toNat "") o.choice_response_text true] } }) := by
    simp only [make_choice, if_pos hv, hgo, if_true]
  refine ⟨_, _, hmc, rfl, rfl, hlen, ?_⟩
  intro hj
  obtain ⟨r', e2, hmc', hngo', -, hstep⟩ :=
    make_choice_quiet _ j o' hj hgo' hcr' hmr' hor' hpr'
  refine ⟨r', e2, hmc', hngo', ?_⟩
  have hub := update_buffs_story_le
    { update_buffs e with
      last_used_memory :=
        if o.include_memory_roll && !(update_buffs e).state.past_memories.isEmpty
        then some (pick_mem (update_buffs e).state.past_memories o.memory_idx)
        else none
      state :=
      { (update_buffs e).state with
        story_events := (update_buffs e).state.story_events ++
          [.player_choice (e.choices.getD i.toNat "") o.choice_response_text true] } }
  omega

/-- C2 (counterexample to "the choice list returned is empty and remains
empty ... no further resolve call is accepted"): on a concrete session, a
terminal-roll `make_choice` returns `game_over = true`, yet `get_choices`
afterwards still returns the previous 2-option list (not the empty list),
and a further `make_choice 0` on that session is accepted: it succeeds with
`game_over = false` and grows the story log from 2 to 3 events. -/
theorem game_over_choices_counterexample :
    ((make_choice sample_engine 0 terminal_oracle).toOption.map
        (fun p => p.1.game_over) = some true)
    ∧ ((make_choice sample_engine 0 terminal_oracle).toOption.map
        (fun p => get_choices p.2)
      = some ["Follow the path deeper into the woods",
              "Examine the glowing mushrooms"])
    ∧ ((make_choice sample_engine 0 terminal_oracle).toOption.map
        (fun p => (make_choice p.2 0 quiet_oracle).toOption.map
          (fun q => (q.1.game_over, p.2.state.story_events.length,
            q.2.state.story_events.length)))
      = some (some (false, 2, 3))) := by decide

/-- Witness for C2's amended theorem: the concrete session and oracles of the
counterexample, with every hypothesis discharged. -/
theorem make_choice_terminal_behavior_witness :
    ∃ r e1, make_choice sample_engine 0 terminal_oracle = .ok (r, e1)
      ∧ r.game_over = true
      ∧ get_choices e1 = get_choices sample_engine
      ∧ get_choices e1 ≠ []
      ∧ ((0 ≤ (0 : ℤ) ∧ (0 : ℤ) < e1.choices.length) →
          ∃ r' e2, make_choice e1 0 quiet_oracle = .ok (r', e2)
            ∧ r'.game_over = false
            ∧ e1.state.story_events.length < e2.state.story_events.length) :=
  make_choice_terminal_behavior sample_engine 0 0 terminal_oracle quiet_oracle
    ⟨by decide, by decide⟩ rfl rfl rfl rfl rfl rfl
